import Mathlib

/-!
Verification development for the qirvo-echo-cli remote command listener.
The definitions below are a shallow embedding of the TypeScript sources
src/echo-command-handler.ts and src/remote-command-handler.ts: pure string
processing is translated to Lean functions, the network and the shell are
passed in explicitly as outcome values, and JavaScript library semantics
(String.prototype.split, trim, truthiness of strings) are modelled
faithfully on lists of characters.
-/

/-! Section: JavaScript string primitives -/

/-- Whitespace test matching the character class used by the regular
expression in the source (space, tab, newline, carriage return, vertical
tab, form feed; the inputs of interest are ASCII). -/
def isJsWs (c : Char) : Bool :=
  c = ' ' || c = '\t' || c = '\n' || c = '\r' || c = Char.ofNat 11 || c = Char.ofNat 12

/-- JavaScript s.split with a one-or-more-whitespace separator regex, on
character lists.  Each maximal whitespace run is a separator; a leading or
trailing run contributes an empty segment, and the empty string yields a
single empty segment (never the empty list). -/
def splitWsChars : List Char → List (List Char)
  | [] => [[]]
  | c :: rest =>
    if isJsWs c then
      match rest with
      | [] => [] :: splitWsChars rest
      | c2 :: _ => if isJsWs c2 then splitWsChars rest else [] :: splitWsChars rest
    else
      match splitWsChars rest with
      | [] => [[c]]
      | t :: ts => (c :: t) :: ts

/-- JavaScript String.prototype.trim on character lists. -/
def jsTrimChars (cs : List Char) : List Char :=
  ((cs.dropWhile isJsWs).reverse.dropWhile isJsWs).reverse

/-- JavaScript String.prototype.trim. -/
def jsTrim (s : String) : String :=
  String.mk (jsTrimChars s.data)

/-- JavaScript split on one-or-more whitespace, producing strings. -/
def jsSplitWs (s : String) : List String :=
  (splitWsChars s.data).map String.mk

/-- Truthiness of a JavaScript value that is either a string or
undefined/null: undefined, null and the empty string are falsy. -/
def optTruthy : Option String → Bool
  | none => false
  | some s => s ≠ ""

/-- The JavaScript expression a || b where a is a string or undefined and
b is a string default. -/
def jsOrOpt (a : Option String) (b : String) : String :=
  match a with
  | none => b
  | some s => if s = "" then b else s

/-- Array.prototype.filter(Boolean) over a list whose entries may be
undefined: drops undefined entries and empty strings. -/
def filterBoolean (xs : List (Option String)) : List String :=
  xs.filterMap (fun x =>
    match x with
    | none => none
    | some s => if s = "" then none else some s)

/-- JavaScript String.prototype.toLowerCase, on the ASCII inputs the
translator compares against (lower-cases the Latin letters). -/
def jsToLower (s : String) : String :=
  String.mk (s.data.map Char.toLower)

/-- Whether a string starts with the command sigil, as tested by
command.startsWith in the source. -/
def startsWithColon (s : String) : Bool :=
  match s.data with
  | ':' :: _ => true
  | _ => false

/-! Section: Command Translator (parseCliCommand, src/echo-command-handler.ts) -/

/-- The canonical dashboard command paired with its argument list, the
return shape of parseCliCommand. -/
structure ParsedCommand where
  dashboardCommand : String
  args : List String
deriving Repr, DecidableEq

/-- The token list the translator works on: strip a leading sigil, trim,
split on whitespace (JavaScript semantics). -/
def cliParts (command : String) : List String :=
  let cleanData := if startsWithColon command then command.data.tail else command.data
  (splitWsChars (jsTrimChars cleanData)).map String.mk

/-- Translation of parseCliCommand from src/echo-command-handler.ts.
The switch on the lower-cased main verb is rendered as nested
comparisons; the destructured subCommand is an optional value, and
filter(Boolean) drops an undefined sub-verb exactly as in the source.
Note that the JavaScript split of the empty string yields a one-element
list containing the empty string, so the length-zero branch is kept only
for faithfulness: it is unreachable. -/
def parseCliCommand (command : String) : ParsedCommand :=
  let parts := cliParts command
  if parts.length = 0 then
    ⟨":help", []⟩
  else
    let mainCommand := parts.headD ""
    let subCommand : Option String := parts[1]?
    let args := parts.drop 2
    let lower := jsToLower mainCommand
    if lower = "agent" then
      if subCommand = some "ask" then ⟨":agent", args⟩
      else ⟨":agent", filterBoolean (subCommand :: args.map some)⟩
    else if lower = "task" then
      if subCommand = some "add" ∨ subCommand = some "create" then ⟨":task add", args⟩
      else if subCommand = some "list" then ⟨":task list", args⟩
      else if subCommand = some "complete" ∨ subCommand = some "done" then ⟨":task complete", args⟩
      else if subCommand = some "delete" ∨ subCommand = some "remove" then ⟨":task delete", args⟩
      else ⟨":task list", []⟩
    else if lower = "git" then
      if subCommand = some "status" ∨ optTruthy subCommand = false then ⟨":git status", args⟩
      else if subCommand = some "commit" then ⟨":git commit", args⟩
      else if subCommand = some "branches" then ⟨":git branches", args⟩
      else if subCommand = some "prs" ∨ subCommand = some "pr" then ⟨":git prs", args⟩
      else if subCommand = some "config" then ⟨":git config", args⟩
      else ⟨":git status", []⟩
    else if lower = "help" ∨ lower = "h" then ⟨":help", args⟩
    else if lower = "clear" ∨ lower = "cls" then ⟨":clear", args⟩
    else if lower = "version" then ⟨":version", args⟩
    else if lower = "time" then ⟨":time", args⟩
    else if lower = "plugin" ∨ lower = "plugins" then
      ⟨":plugin", filterBoolean (subCommand :: args.map some)⟩
    else if lower = "memory" then ⟨":memory", args⟩
    else if lower = "logs" then ⟨":logs", args⟩
    else
      if startsWithColon command then
        match jsSplitWs command with
        | [] => ⟨"", []⟩
        | cmd :: cmdArgs => ⟨cmd, cmdArgs⟩
      else
        ⟨":" ++ mainCommand, filterBoolean (subCommand :: args.map some)⟩


/-! Section: SHA-256 (the crypto.createHash digest used by reportCommandResult) -/

/-- Truncation to a 32-bit word. -/
def w32 (n : Nat) : Nat := n % 4294967296

/-- Right rotation of a 32-bit word. -/
def rotr32 (x n : Nat) : Nat := w32 (x / 2 ^ n + x % 2 ^ n * 2 ^ (32 - n))

/-- SHA-256 choice function. -/
def ch32 (x y z : Nat) : Nat := (x &&& y) ^^^ ((x ^^^ 4294967295) &&& z)

/-- SHA-256 majority function. -/
def maj32 (x y z : Nat) : Nat := (x &&& y) ^^^ (x &&& z) ^^^ (y &&& z)

/-- SHA-256 big sigma 0. -/
def bsig0 (x : Nat) : Nat := rotr32 x 2 ^^^ rotr32 x 13 ^^^ rotr32 x 22

/-- SHA-256 big sigma 1. -/
def bsig1 (x : Nat) : Nat := rotr32 x 6 ^^^ rotr32 x 11 ^^^ rotr32 x 25

/-- SHA-256 small sigma 0. -/
def ssig0 (x : Nat) : Nat := rotr32 x 7 ^^^ rotr32 x 18 ^^^ x / 2 ^ 3

/-- SHA-256 small sigma 1. -/
def ssig1 (x : Nat) : Nat := rotr32 x 17 ^^^ rotr32 x 19 ^^^ x / 2 ^ 10

/-- SHA-256 round constants. -/
def sha256K : List Nat :=
  [1116352408, 1899447441, 3049323471, 3921009573,
   961987163, 1508970993, 2453635748, 2870763221,
   3624381080, 310598401, 607225278, 1426881987,
   1925078388, 2162078206, 2614888103, 3248222580,
   3835390401, 4022224774, 264347078, 604807628,
   770255983, 1249150122, 1555081692, 1996064986,
   2554220882, 2821834349, 2952996808, 3210313671,
   3336571891, 3584528711, 113926993, 338241895,
   666307205, 773529912, 1294757372, 1396182291,
   1695183700, 1986661051, 2177026350, 2456956037,
   2730485921, 2820302411, 3259730800, 3345764771,
   3516065817, 3600352804, 4094571909, 275423344,
   430227734, 506948616, 659060556, 883997877,
   958139571, 1322822218, 1537002063, 1747873779,
   1955562222, 2024104815, 2227730452, 2361852424,
   2428436474, 2756734187, 3204031479, 3329325298]

/-- SHA-256 initial hash state. -/
def sha256H0 : List Nat :=
  [1779033703, 3144134277, 1013904242, 2773480762,
   1359893119, 2600822924, 528734635, 1541459225]

/-- Big-endian byte expansion of a number into k bytes. -/
def bytesBE (k n : Nat) : List Nat :=
  (List.range k).map (fun i => n / 2 ^ (8 * (k - 1 - i)) % 256)

/-- SHA-256 padding of a byte message. -/
def sha256pad (msg : List Nat) : List Nat :=
  msg ++ [128] ++ List.replicate ((64 - (msg.length + 9) % 64) % 64) 0 ++ bytesBE 8 (8 * msg.length)

/-- Group bytes into big-endian 32-bit words. -/
def words4 : List Nat → List Nat
  | b0 :: b1 :: b2 :: b3 :: rest => (((b0 * 256 + b1) * 256 + b2) * 256 + b3) :: words4 rest
  | _ => []

/-- Group a word stream into 16-word blocks. -/
def blocks16 : List Nat → List (List Nat)
  | w0 :: w1 :: w2 :: w3 :: w4 :: w5 :: w6 :: w7 ::
    w8 :: w9 :: w10 :: w11 :: w12 :: w13 :: w14 :: w15 :: rest =>
      [w0, w1, w2, w3, w4, w5, w6, w7, w8, w9, w10, w11, w12, w13, w14, w15] :: blocks16 rest
  | _ => []

/-- Message schedule: extend a 16-word block to 64 words. -/
def sha256sched (block : List Nat) : List Nat :=
  (List.range 48).foldl
    (fun ws _ =>
      ws ++ [w32 (ssig1 (ws.getD (ws.length - 2) 0) + ws.getD (ws.length - 7) 0 +
                  ssig0 (ws.getD (ws.length - 15) 0) + ws.getD (ws.length - 16) 0)])
    block

/-- One SHA-256 compression round, on the eight-word working state. -/
def sha256round (st : List Nat) (kw : Nat) : List Nat :=
  match st with
  | [a, b, c, d, e, f, g, hh] =>
    let t1 := w32 (hh + bsig1 e + ch32 e f g + kw)
    let t2 := w32 (bsig0 a + maj32 a b c)
    [w32 (t1 + t2), a, b, c, w32 (d + t1), e, f, g]
  | other => other

/-- SHA-256 compression of one block into the hash state. -/
def sha256compress (hs block : List Nat) : List Nat :=
  let kws := List.zipWith (fun k w => w32 (k + w)) sha256K (sha256sched block)
  List.zipWith (fun h v => w32 (h + v)) hs (kws.foldl sha256round hs)

/-- SHA-256 digest of a byte message, as 32 bytes. -/
def sha256 (msg : List Nat) : List Nat :=
  (((blocks16 (words4 (sha256pad msg))).foldl sha256compress sha256H0).map (bytesBE 4)).flatten

/-- A lower-case hexadecimal digit. -/
def hexChar (n : Nat) : Char := if n < 10 then Char.ofNat (48 + n) else Char.ofNat (87 + n)

/-- Lower-case hexadecimal rendering of a byte. -/
def byteHex (b : Nat) : List Char := [hexChar (b / 16), hexChar (b % 16)]

/-- The UTF-8 bytes of a string, as natural numbers. -/
def strBytes (s : String) : List Nat := s.toUTF8.toList.map (fun b => b.toNat)

/-- The hex digest string produced by createHash sha256 update digest. -/
def sha256hex (s : String) : String := String.mk ((sha256 (strBytes s)).map byteHex).flatten

/-! Section: Remote command handler data model (src/remote-command-handler.ts) -/

/-- The declared type tag of a command request (never consulted at
dispatch time). -/
inductive CmdType where
  | echoCli
  | system
deriving Repr, DecidableEq

/-- A Command Request as delivered by the backend (interface
CommandRequest). -/
structure CommandRequest where
  id : String
  command : String
  args : Option (List String)
  workingDirectory : Option String
  timeout : Option Nat
  type : CmdType
  userId : String
  sessionId : String
  createdAt : String
deriving Repr, DecidableEq

/-- The body of the result report PUT to the backend, as assembled by
reportCommandResult: the top-level commandId, and the result object
fields.  The string-or-null result and error values are optional
values. -/
structure ReportBody where
  commandId : String
  success : Bool
  output : Option String
  error : Option String
  executionTime : Nat
deriving Repr, DecidableEq

/-- The response body of the echo-command proxy endpoint. -/
structure EchoResponse where
  success : Bool
  output : Option String
  error : Option String
deriving Repr, DecidableEq

/-- Outcome of the axios POST performed by handleEchoCommand: either a
successful HTTP exchange carrying a response body, or an axios error
with its message and, when the backend answered with an error body, that
body's error string. -/
inductive EchoOutcome where
  | resp (r : EchoResponse)
  | axiosErr (message : String) (respError : Option String)
deriving Repr, DecidableEq

/-- Outcome of the child-process exec callback: an error (non-zero exit,
timeout, buffer overrun, spawn failure) with its message, or captured
stdout and stderr texts. -/
inductive ExecOutcome where
  | err (message : String)
  | ok (stdout stderr : String)
deriving Repr, DecidableEq

/-! Section: Local executors -/

/-- Translation of handleEchoCommand (src/echo-command-handler.ts):
parse, POST to the backend, and either return the output (with the
JavaScript or-default on an empty or missing output), or throw.  A
backend-reported failure is thrown inside the try block and re-wrapped
by the catch as an API-request failure; an axios error carrying a
backend error body propagates that error text. -/
def handleEchoCommand (outcome : EchoOutcome) : Except String String :=
  match outcome with
  | .resp r =>
    if r.success then
      .ok (jsOrOpt r.output "Command executed successfully")
    else
      .error ("API request failed: " ++ jsOrOpt r.error "Command execution failed")
  | .axiosErr msg respErr =>
    if optTruthy respErr then
      .error (respErr.getD "")
    else
      .error ("API request failed: " ++ msg)

/-- Translation of executeEchoCommand (src/remote-command-handler.ts):
delegate to handleEchoCommand and wrap any failure message. -/
def executeEchoCommand (outcome : EchoOutcome) : Except String String :=
  match handleEchoCommand outcome with
  | .ok r => .ok r
  | .error e => .error ("Echo CLI command failed: " ++ e)

/-- The full shell invocation built by executeSystemCommand: the command
joined with its arguments by single spaces (arguments default to the
empty list). -/
def buildFullCommand (req : CommandRequest) : String :=
  let args := req.args.getD []
  if args.length > 0 then req.command ++ " " ++ String.intercalate " " args else req.command

/-- Translation of the exec callback of executeSystemCommand
(src/remote-command-handler.ts): an error rejects with a wrapped
message; otherwise the output is stdout, or stderr when stdout is empty,
or a fixed placeholder when both are empty, trimmed. -/
def executeSystemCommand (outcome : ExecOutcome) : Except String String :=
  match outcome with
  | .err m => .error ("Command failed: " ++ m)
  | .ok stdout stderr =>
    .ok (jsTrim (jsOrOpt (some stdout) (jsOrOpt (some stderr) "Command completed successfully")))

/-- The effective timeout applied to a system command: the request value
or the 30000 millisecond default. -/
def effectiveTimeout (req : CommandRequest) : Nat := req.timeout.getD 30000

/-! Section: Result reporting -/

/-- The commandId generated by reportCommandResult: the first sixteen
hex characters of the SHA-256 digest of the session id, the command text
and the current clock reading, joined by dashes.  Note it is computed
from these three values only. -/
def genCommandId (sessionId command : String) (nowMs : Nat) : String :=
  String.mk ((sha256hex (sessionId ++ "-" ++ command ++ "-" ++ toString nowMs)).data.take 16)

/-- Translation of reportCommandResult (src/remote-command-handler.ts):
assemble the PUT body from the request, the result or error produced by
the executor, and the measured execution time.  success is the
JavaScript negation of the error value's truthiness. -/
def reportCommandResult (sessionId : String) (req : CommandRequest)
    (result : Option String) (error : Option String)
    (executionTime nowMs : Nat) : ReportBody :=
  { commandId := genCommandId sessionId req.command nowMs
    success := !optTruthy error
    output := result
    error := error
    executionTime := executionTime }

/-- The environment one executeCommand run interacts with: the outcome
the echo path would observe, the outcome the shell path would observe,
the wall clock at dispatch and at completion, and the clock reading used
when generating the report commandId. -/
structure ExecEnv where
  echoOutcome : EchoOutcome
  execOutcome : ExecOutcome
  t0 : Nat
  t1 : Nat
  nowMs : Nat
deriving Repr, DecidableEq

/-- The executor dispatch inside executeCommand: commands whose text
starts with the sigil go to the echo path, all others to the shell. -/
def executeCommandResult (req : CommandRequest) (env : ExecEnv) : Except String String :=
  if startsWithColon req.command then executeEchoCommand env.echoOutcome
  else executeSystemCommand env.execOutcome

/-- Translation of executeCommand (src/remote-command-handler.ts): run
the dispatched executor, catching a failure into the error slot, and
report the result.  The try and catch structure makes this a total
function: every outcome ends in a report, never an escaping
exception. -/
def executeCommand (sessionId : String) (req : CommandRequest) (env : ExecEnv) : ReportBody :=
  match executeCommandResult req env with
  | .ok r => reportCommandResult sessionId req (some r) none (env.t1 - env.t0) env.nowMs
  | .error e => reportCommandResult sessionId req none (some e) (env.t1 - env.t0) env.nowMs

/-! Section: Session lifecycle (start, stop, registerSession, deactivateSession) -/

/-- The mutable listener state relevant to the lifecycle: the session
identity fixed at construction, the active flag, and whether the two
interval timers are installed. -/
structure ListenerState where
  sessionId : String
  isActive : Bool
  pollInterval : Bool
  heartbeatInterval : Bool
deriving Repr, DecidableEq

/-- A HTTP call issued to the backend, recorded so theorems can speak
about which calls a code path performs. -/
inductive BackendCall where
  | registerSession (sessionId : String)
  | heartbeat (sessionId : String)
  | pollFetch (sessionId : String)
  | reportResult (body : ReportBody)
  | deactivateSession (sessionId : String)
deriving Repr, DecidableEq

/-- The state built by the constructor: inactive, no timers. -/
def initialState (sessionId : String) : ListenerState :=
  ⟨sessionId, false, false, false⟩

/-- The registration response body. -/
structure RegResponse where
  success : Bool
  error : Option String
deriving Repr, DecidableEq

/-- Outcome of the registration POST: a response body, or an axios error
with its message (the logged text may use the backend body, but the
re-thrown value is the original error). -/
inductive RegOutcome where
  | ok (r : RegResponse)
  | netError (message : String) (respError : Option String)
deriving Repr, DecidableEq

/-- Translation of registerSession (src/remote-command-handler.ts): one
POST; a body with success false throws the body error or a fixed
default, a network failure re-throws the original error.  No retry is
performed: the call list is a single registration. -/
def registerSession (sessionId : String) (o : RegOutcome) :
    Except String Unit × List BackendCall :=
  match o with
  | .ok r =>
    if r.success then (.ok (), [.registerSession sessionId])
    else (.error (jsOrOpt r.error "Failed to register session"), [.registerSession sessionId])
  | .netError msg _ => (.error msg, [.registerSession sessionId])

/-- Translation of start (src/remote-command-handler.ts): register, and
only on success install both timers and set the active flag; a
registration failure re-throws and leaves the state untouched. -/
def start (s : ListenerState) (o : RegOutcome) :
    Except String Unit × ListenerState × List BackendCall :=
  match registerSession s.sessionId o with
  | (.error e, calls) => (.error e, s, calls)
  | (.ok _, calls) =>
    (.ok (), { s with pollInterval := true, heartbeatInterval := true, isActive := true }, calls)

/-- Translation of deactivateSession (src/remote-command-handler.ts): a
best-effort DELETE, issued unconditionally; a failure of the call is
swallowed. -/
def deactivateSession (s : ListenerState) : List BackendCall :=
  [.deactivateSession s.sessionId]

/-- Translation of stop (src/remote-command-handler.ts): clear the
active flag, clear each installed timer, then always issue the
deactivation call.  The surrounding try and catch swallows every error,
so stop is a total function. -/
def stop (s : ListenerState) : ListenerState × List BackendCall :=
  let s1 := { s with isActive := false }
  let s2 := if s1.pollInterval then { s1 with pollInterval := false } else s1
  let s3 := if s2.heartbeatInterval then { s2 with heartbeatInterval := false } else s2
  (s3, deactivateSession s3)

/-! Section: Poller interleaving model (startPolling and checkForCommands)

startPolling installs a 5-second interval whose asynchronous callback is
not awaited by the timer: a tick whose batch is still executing does not
prevent the next tick from firing.  Within one tick, checkForCommands
executes the fetched commands strictly in order, awaiting each
executeCommand before dispatching the next.  The model below renders
this as a small-step relation over the set of in-flight tick tasks; the
execution of one command is split into a dispatch step and a completion
step so that overlap between commands is expressible. -/

/-- One in-flight invocation of checkForCommands: the batch it fetched,
the commands already fully executed (in order), the commands currently
executing, and the commands not yet dispatched.  The inflight field is a
list so that the model itself does not presuppose the sequentiality
being proved. -/
structure TickTask where
  batch : List String
  done : List String
  inflight : List String
  pending : List String
deriving Repr, DecidableEq

/-- The poller state: the listener active flag and the in-flight tick
tasks. -/
structure PollState where
  isActive : Bool
  tasks : List TickTask
deriving Repr, DecidableEq

/-- Small-step transitions of the poll loop.  tickFire is the interval
callback firing while the listener is active and fetching a batch (the
timer does not await earlier callbacks, so it is enabled regardless of
existing tasks).  startCmd dispatches the next pending command of a
task, but only when that task has no command still executing, because
the loop in checkForCommands awaits each executeCommand.  finishCmd
completes an executing command, that is, its result has been
computed. -/
inductive PollStep : PollState → PollState → Prop where
  | tickFire (s : PollState) (batch : List String) (h : s.isActive = true) :
      PollStep s ⟨s.isActive, s.tasks ++ [⟨batch, [], [], batch⟩]⟩
  | startCmd (s : PollState) (i : Nat) (t : TickTask) (c : String) (cs : List String)
      (ht : s.tasks[i]? = some t) (hin : t.inflight = []) (hp : t.pending = c :: cs) :
      PollStep s ⟨s.isActive, s.tasks.set i ⟨t.batch, t.done, [c], cs⟩⟩
  | finishCmd (s : PollState) (i : Nat) (t : TickTask) (c : String)
      (ht : s.tasks[i]? = some t) (hin : t.inflight = [c]) :
      PollStep s ⟨s.isActive, s.tasks.set i ⟨t.batch, t.done ++ [c], [], t.pending⟩⟩

/-- Reachability in the poller model. -/
def PollReachable : PollState → PollState → Prop := Relation.ReflTransGen PollStep

/-- The state of a freshly started listener: active, no tick task yet. -/
def pollInit : PollState := ⟨true, []⟩

/-- How many command executions are in flight across all tick tasks. -/
def executingCount (s : PollState) : Nat :=
  (s.tasks.map (fun t => t.inflight.length)).sum

/-! Section: Helper lemmas -/

/-- A string with a non-empty prefix appended to anything is non-empty. -/
theorem append_left_ne_empty (p m : String) (hp : p.data ≠ []) : p ++ m ≠ "" := by
  intro h
  have hd : (p ++ m).data = ("" : String).data := by rw [h]
  rw [String.data_append] at hd
  rcases List.append_eq_nil.mp hd with ⟨h1, _⟩
  exact hp h1

/-- Every error produced by the echo executor carries the wrapping
prefix and is therefore non-empty. -/
theorem executeEchoCommand_error_ne_empty (o : EchoOutcome) (e : String)
    (h : executeEchoCommand o = .error e) : e ≠ "" := by
  unfold executeEchoCommand at h
  cases ho : handleEchoCommand o with
  | ok r => rw [ho] at h; cases h
  | error m =>
    rw [ho] at h
    cases h
    exact append_left_ne_empty "Echo CLI command failed: " m (by decide)

/-- Every error produced by the system executor carries the wrapping
prefix and is therefore non-empty. -/
theorem executeSystemCommand_error_ne_empty (o : ExecOutcome) (e : String)
    (h : executeSystemCommand o = .error e) : e ≠ "" := by
  cases o with
  | err m =>
    cases h
    exact append_left_ne_empty "Command failed: " m (by decide)
  | ok stdout stderr => cases h

/-- Every error escaping the executor dispatch is non-empty. -/
theorem executeCommandResult_error_ne_empty (req : CommandRequest) (env : ExecEnv) (e : String)
    (h : executeCommandResult req env = .error e) : e ≠ "" := by
  unfold executeCommandResult at h
  by_cases hc : startsWithColon req.command = true
  · rw [if_pos hc] at h; exact executeEchoCommand_error_ne_empty _ _ h
  · rw [if_neg hc] at h; exact executeSystemCommand_error_ne_empty _ _ h

/-- After one stop, the listener state has the active flag and both
timers cleared, whatever state it started from. -/
theorem stop_state (s : ListenerState) : (stop s).1 = ⟨s.sessionId, false, false, false⟩ := by
  rcases s with ⟨sid, a, p, h⟩
  cases p <;> cases h <;> rfl

/-! Section: Claim theorems -/

/-- A concrete Command Request used to exercise result reporting. -/
def c1ReqA : CommandRequest :=
  { id := "req-aaa", command := "ls", args := some [], workingDirectory := none,
    timeout := none, type := .system, userId := "user", sessionId := "sess",
    createdAt := "2024-01-01T00:00:00Z" }

/-- The same request with a different backend-assigned id. -/
def c1ReqB : CommandRequest := { c1ReqA with id := "req-bbb" }

/-- C1: falsified.  The commandId placed in the result report is a hash
of the session id, the command text and the clock; it does not read the
request's backend-assigned id at all.  Two requests that differ only in
their id produce the same reported commandId, so the reported commandId
cannot equal the request id for both, contradicting the claimed
correlation. -/
theorem c1_commandId_ignores_request_id :
    (reportCommandResult "sess" c1ReqA (some "out") none 5 1000).commandId =
      (reportCommandResult "sess" c1ReqB (some "out") none 5 1000).commandId ∧
    ¬((reportCommandResult "sess" c1ReqA (some "out") none 5 1000).commandId = c1ReqA.id ∧
      (reportCommandResult "sess" c1ReqB (some "out") none 5 1000).commandId = c1ReqB.id) := by
  refine ⟨rfl, ?_⟩
  rintro ⟨h1, h2⟩
  have heq : c1ReqA.id = c1ReqB.id := by
    rw [← h1, ← h2]; exact rfl
  exact absurd heq (by decide)

/-- C3: counterexample.  Stopping an already-stopped listener issues a
second deactivation call to the backend, refuting the claim that no
duplicate deregister call is made. -/
theorem c3_second_stop_deregisters_again :
    (stop (stop (ListenerState.mk "sess" true true true)).1).2 =
      [BackendCall.deactivateSession "sess"] ∧
    (stop (stop (ListenerState.mk "sess" true true true)).1).2 ≠ [] := by
  decide

/-- C3 as amended: a second stop raises no exception (stop is total and
swallows call failures), leaves the listener state unchanged, and its
only backend-visible effect is one more best-effort deactivation
call. -/
theorem c3_stop_idempotent_state :
    ∀ s : ListenerState,
      (stop (stop s).1).1 = (stop s).1 ∧
      (stop (stop s).1).2 = [BackendCall.deactivateSession s.sessionId] := by
  intro s
  rcases s with ⟨sid, a, p, h⟩
  cases p <;> cases h <;> exact ⟨rfl, rfl⟩

/-- C4: the code, evaluated at the failing input.  The empty command
translates to the bare sigil with no arguments, not to the fixed help
command: the JavaScript split of the empty string yields a one-element
list, so the length-zero help branch is dead code. -/
theorem c4_empty_input_is_bare_sigil :
    parseCliCommand "" = ⟨":", []⟩ ∧ parseCliCommand "" ≠ ⟨":help", []⟩ := by
  decide

/-- C5: counterexample.  The quoted phrase is not preserved as a single
argument: tokenization is purely on whitespace and quote characters are
kept literally, so the translated arguments differ from the claimed
ones. -/
theorem c5_quotes_not_preserved :
    parseCliCommand "task add \"Write docs\" -d \"details\"" ≠
      ⟨":task add", ["Write docs", "-d", "details"]⟩ := by
  decide

/-- C5 as amended: the command text translates to the canonical task-add
command, with the whitespace-separated tokens, quote characters
included, as the arguments. -/
theorem c5_task_add_tokens :
    parseCliCommand "task add \"Write docs\" -d \"details\"" =
      ⟨":task add", ["\"Write", "docs\"", "-d", "\"details\""]⟩ := by
  decide

/-- C7: on a system command that completes without error, the stored
output is the trimmed stdout text when stdout is non-empty, else the
trimmed stderr text when that is non-empty, else the fixed completion
placeholder. -/
theorem c7_system_output_selection :
    ∀ stdout stderr : String,
      (stdout ≠ "" → executeSystemCommand (.ok stdout stderr) = .ok (jsTrim stdout)) ∧
      (stdout = "" → stderr ≠ "" → executeSystemCommand (.ok stdout stderr) = .ok (jsTrim stderr)) ∧
      (stdout = "" → stderr = "" →
        executeSystemCommand (.ok stdout stderr) = .ok "Command completed successfully") := by
  intro stdout stderr
  refine ⟨?_, ?_, ?_⟩
  · intro h; simp [executeSystemCommand, jsOrOpt, h]
  · intro h1 h2; simp [executeSystemCommand, jsOrOpt, h1, h2]
  · intro h1 h2; simp [executeSystemCommand, jsOrOpt, h1, h2]; decide

/-- Witness for the C7 theorem at concrete captured outputs, one per
branch. -/
theorem c7_system_output_selection_witness :
    executeSystemCommand (.ok "  hello " "") = .ok (jsTrim "  hello ") ∧
    executeSystemCommand (.ok "" "warn") = .ok (jsTrim "warn") ∧
    executeSystemCommand (.ok "" "") = .ok "Command completed successfully" :=
  ⟨(c7_system_output_selection "  hello " "").1 (by decide),
   (c7_system_output_selection "" "warn").2.1 rfl (by decide),
   (c7_system_output_selection "" "").2.2 rfl rfl⟩

/-- C9: if registration fails, by network error or by a backend body
with success false, start rejects with that error (the backend's error
message when it gives one), the listener state is untouched and in
particular never becomes active, and exactly one registration call was
issued (no retry). -/
theorem c9_registration_failure_fatal :
    ∀ (sid e : String), e ≠ "" →
      (start (initialState sid) (.ok ⟨false, some e⟩) =
        (.error e, initialState sid, [BackendCall.registerSession sid])) ∧
      (∀ (m : String) (re : Option String),
        start (initialState sid) (.netError m re) =
          (.error m, initialState sid, [BackendCall.registerSession sid])) ∧
      (initialState sid).isActive = false := by
  intro sid e he
  refine ⟨?_, ?_, rfl⟩
  · simp [start, registerSession, jsOrOpt, he, initialState]
  · intro m re
    simp [start, registerSession, initialState]

/-- Witness for the C9 theorem: the quota-exceeded scenario from the
specification. -/
theorem c9_registration_failure_fatal_witness :
    start (initialState "sess") (.ok ⟨false, some "quota exceeded"⟩) =
      (.error "quota exceeded", initialState "sess", [BackendCall.registerSession "sess"]) :=
  (c9_registration_failure_fatal "sess" "quota exceeded" (by decide)).1

/-- A concrete internal Command Request used for the echo-path
counterexample. -/
def c6Req : CommandRequest :=
  { id := "r1", command := ":help", args := none, workingDirectory := none,
    timeout := none, type := .echoCli, userId := "user", sessionId := "sess",
    createdAt := "2024-01-01T00:00:00Z" }

/-- C6: counterexample.  When the backend reports success with an empty
output, the execution result is the fixed placeholder text, not the
backend's output verbatim. -/
theorem c6_empty_output_not_verbatim :
    (executeCommand "sess" c6Req ⟨.resp ⟨true, some "", none⟩, .ok "" "", 0, 5, 9⟩).output =
      some "Command executed successfully" ∧
    some "Command executed successfully" ≠ some ("" : String) := by
  exact ⟨rfl, by decide⟩

/-- Shape of the report assembled after a failed execution: success
false, the executor's message as the error, no output. -/
theorem executeCommand_error_shape (sid : String) (req : CommandRequest) (env : ExecEnv)
    (e : String) (he : executeCommandResult req env = .error e) :
    (executeCommand sid req env).success = false ∧
    (executeCommand sid req env).error = some e ∧
    (executeCommand sid req env).output = none := by
  have hne := executeCommandResult_error_ne_empty req env e he
  simp [executeCommand, he, reportCommandResult, optTruthy, hne]

/-- Shape of the report assembled after a successful execution: success
true, no error, the produced text as output. -/
theorem executeCommand_ok_shape (sid : String) (req : CommandRequest) (env : ExecEnv)
    (r : String) (hr : executeCommandResult req env = .ok r) :
    (executeCommand sid req env).success = true ∧
    (executeCommand sid req env).error = none ∧
    (executeCommand sid req env).output = some r := by
  simp [executeCommand, hr, reportCommandResult, optTruthy]

/-- C6 as amended: for an internal command, a backend success with a
non-empty output is returned verbatim into the Command Result (an empty
or missing output is replaced by a fixed placeholder), and every
forwarding failure, network error or backend-reported failure alike,
ends as a result with success false and a captured error, never as an
escaping exception. -/
theorem c6_internal_command_contract :
    ∀ (sid : String) (req : CommandRequest) (env : ExecEnv),
      startsWithColon req.command = true →
      (∀ (r : EchoResponse) (o : String),
        env.echoOutcome = .resp r → r.success = true → r.output = some o → o ≠ "" →
          (executeCommand sid req env).success = true ∧
          (executeCommand sid req env).output = some o) ∧
      (∀ (m : String) (re : Option String), env.echoOutcome = .axiosErr m re →
          (executeCommand sid req env).success = false ∧
          (executeCommand sid req env).error.isSome = true ∧
          (executeCommand sid req env).output = none) ∧
      (∀ r : EchoResponse, env.echoOutcome = .resp r → r.success = false →
          (executeCommand sid req env).success = false ∧
          (executeCommand sid req env).error.isSome = true ∧
          (executeCommand sid req env).output = none) := by
  intro sid req env hcolon
  refine ⟨?_, ?_, ?_⟩
  · intro r o ho hs hout hne
    have hok : executeCommandResult req env = .ok o := by
      simp [executeCommandResult, hcolon, executeEchoCommand, handleEchoCommand,
        ho, hs, hout, jsOrOpt, hne]
    have h := executeCommand_ok_shape sid req env o hok
    exact ⟨h.1, h.2.2⟩
  · intro m re ho
    have hfail : ∃ e, executeCommandResult req env = .error e := by
      by_cases hre : optTruthy re = true
      · refine ⟨"Echo CLI command failed: " ++ re.getD "", ?_⟩
        simp [executeCommandResult, hcolon, executeEchoCommand, handleEchoCommand, ho, hre]
      · refine ⟨"Echo CLI command failed: " ++ ("API request failed: " ++ m), ?_⟩
        simp [executeCommandResult, hcolon, executeEchoCommand, handleEchoCommand, ho, hre]
    obtain ⟨e, he⟩ := hfail
    have h := executeCommand_error_shape sid req env e he
    exact ⟨h.1, by rw [h.2.1]; rfl, h.2.2⟩
  · intro r ho hs
    have he : executeCommandResult req env =
        .error ("Echo CLI command failed: " ++
          ("API request failed: " ++ jsOrOpt r.error "Command execution failed")) := by
      simp [executeCommandResult, hcolon, executeEchoCommand, handleEchoCommand, ho, hs]
    have h := executeCommand_error_shape sid req env _ he
    exact ⟨h.1, by rw [h.2.1]; rfl, h.2.2⟩

/-- Witness for the C6 theorem: a successful backend exchange with a
non-empty output, an axios failure, and a backend-reported failure, all
on a concrete internal command. -/
theorem c6_internal_command_contract_witness :
    ((executeCommand "sess" c6Req ⟨.resp ⟨true, some "ok!", none⟩, .ok "" "", 0, 5, 9⟩).success = true ∧
     (executeCommand "sess" c6Req ⟨.resp ⟨true, some "ok!", none⟩, .ok "" "", 0, 5, 9⟩).output = some "ok!") ∧
    ((executeCommand "sess" c6Req ⟨.axiosErr "timeout" none, .ok "" "", 0, 5, 9⟩).success = false ∧
     (executeCommand "sess" c6Req ⟨.axiosErr "timeout" none, .ok "" "", 0, 5, 9⟩).error.isSome = true ∧
     (executeCommand "sess" c6Req ⟨.axiosErr "timeout" none, .ok "" "", 0, 5, 9⟩).output = none) ∧
    ((executeCommand "sess" c6Req ⟨.resp ⟨false, none, some "boom"⟩, .ok "" "", 0, 5, 9⟩).success = false ∧
     (executeCommand "sess" c6Req ⟨.resp ⟨false, none, some "boom"⟩, .ok "" "", 0, 5, 9⟩).error.isSome = true ∧
     (executeCommand "sess" c6Req ⟨.resp ⟨false, none, some "boom"⟩, .ok "" "", 0, 5, 9⟩).output = none) :=
  ⟨(c6_internal_command_contract "sess" c6Req ⟨.resp ⟨true, some "ok!", none⟩, .ok "" "", 0, 5, 9⟩
      (by decide)).1 ⟨true, some "ok!", none⟩ "ok!" rfl rfl rfl (by decide),
   (c6_internal_command_contract "sess" c6Req ⟨.axiosErr "timeout" none, .ok "" "", 0, 5, 9⟩
      (by decide)).2.1 "timeout" none rfl,
   (c6_internal_command_contract "sess" c6Req ⟨.resp ⟨false, none, some "boom"⟩, .ok "" "", 0, 5, 9⟩
      (by decide)).2.2 ⟨false, none, some "boom"⟩ rfl rfl⟩

/-- C8: a failed execution is reported with success false, the
executor's error message as the error, and no output; success is true
exactly when the execution produced a result with no error, and an error
is present exactly when success is false. -/
theorem c8_failure_report_shape :
    ∀ (sid : String) (req : CommandRequest) (env : ExecEnv),
      (∀ e : String, executeCommandResult req env = .error e →
          (executeCommand sid req env).success = false ∧
          (executeCommand sid req env).error = some e ∧
          (executeCommand sid req env).output = none) ∧
      ((executeCommand sid req env).success = true ↔
        ∃ r, executeCommandResult req env = .ok r) ∧
      ((executeCommand sid req env).error.isSome = true ↔
        (executeCommand sid req env).success = false) := by
  intro sid req env
  refine ⟨fun e he => executeCommand_error_shape sid req env e he, ?_, ?_⟩
  · cases hres : executeCommandResult req env with
    | ok r =>
      have h := executeCommand_ok_shape sid req env r hres
      simp [h.1, hres]
    | error e =>
      have h := executeCommand_error_shape sid req env e hres
      simp [h.1, hres]
  · cases hres : executeCommandResult req env with
    | ok r =>
      have h := executeCommand_ok_shape sid req env r hres
      simp [h.1, h.2.1]
    | error e =>
      have h := executeCommand_error_shape sid req env e hres
      simp [h.1, h.2.1]

/-- Witness for the C8 theorem: a failing shell command and the same
request succeeding. -/
theorem c8_failure_report_shape_witness :
    (executeCommand "sess" c1ReqA ⟨.resp ⟨true, none, none⟩, .err "exit 1", 0, 5, 9⟩).success = false ∧
    (executeCommand "sess" c1ReqA ⟨.resp ⟨true, none, none⟩, .err "exit 1", 0, 5, 9⟩).error =
      some ("Command failed: " ++ "exit 1") ∧
    (executeCommand "sess" c1ReqA ⟨.resp ⟨true, none, none⟩, .err "exit 1", 0, 5, 9⟩).output = none :=
  (c8_failure_report_shape "sess" c1ReqA ⟨.resp ⟨true, none, none⟩, .err "exit 1", 0, 5, 9⟩).1
    ("Command failed: " ++ "exit 1") rfl

/-- C2: counterexample.  A reachable schedule of the poll loop has two
command executions in flight at once: a first tick fetches a command and
starts executing it, and while it is still running the interval fires
again (the timer does not await the asynchronous callback), fetches
another command and starts executing that one too. -/
theorem c2_overlapping_execution_reachable :
    PollReachable pollInit
      ⟨true, [⟨["A"], [], ["A"], []⟩, ⟨["B"], [], ["B"], []⟩]⟩ ∧
    executingCount ⟨true, [⟨["A"], [], ["A"], []⟩, ⟨["B"], [], ["B"], []⟩]⟩ = 2 := by
  constructor
  · have h1 : PollStep pollInit ⟨true, [⟨["A"], [], [], ["A"]⟩]⟩ :=
      .tickFire pollInit ["A"] rfl
    have h2 : PollStep ⟨true, [⟨["A"], [], [], ["A"]⟩]⟩
        ⟨true, [⟨["A"], [], ["A"], []⟩]⟩ :=
      .startCmd _ 0 ⟨["A"], [], [], ["A"]⟩ "A" [] rfl rfl rfl
    have h3 : PollStep ⟨true, [⟨["A"], [], ["A"], []⟩]⟩
        ⟨true, [⟨["A"], [], ["A"], []⟩, ⟨["B"], [], [], ["B"]⟩]⟩ :=
      .tickFire _ ["B"] rfl
    have h4 : PollStep ⟨true, [⟨["A"], [], ["A"], []⟩, ⟨["B"], [], [], ["B"]⟩]⟩
        ⟨true, [⟨["A"], [], ["A"], []⟩, ⟨["B"], [], ["B"], []⟩]⟩ :=
      .startCmd _ 1 ⟨["B"], [], [], ["B"]⟩ "B" [] rfl rfl rfl
    exact Relation.ReflTransGen.head h1 (Relation.ReflTransGen.head h2
      (Relation.ReflTransGen.head h3 (Relation.ReflTransGen.single h4)))
  · decide

/-- C2 as amended: within one poll tick, execution is strictly
sequential.  In every reachable poller state, each tick task has at most
one command in flight, and its batch decomposes as the already-finished
commands, then the in-flight command, then the not-yet-dispatched ones,
in the order received: the next command is dispatched only after the
previous command's result has been computed.  Executions belonging to
different poll ticks may overlap. -/
theorem c2_within_tick_sequential :
    ∀ s : PollState, PollReachable pollInit s →
      ∀ t ∈ s.tasks, t.inflight.length ≤ 1 ∧
        t.batch = t.done ++ t.inflight ++ t.pending := by
  intro s h
  induction h with
  | refl =>
    intro t ht
    simp [pollInit] at ht
  | tail _ hstep ih =>
    cases hstep with
    | tickFire batch hAct =>
      intro t ht
      rcases List.mem_append.mp ht with hold | hnew
      · exact ih t hold
      · rcases List.mem_singleton.mp hnew with rfl
        exact ⟨by simp, by simp⟩
    | startCmd i t0 c cs ht0 hin0 hp0 =>
      intro t ht
      rcases List.mem_or_eq_of_mem_set ht with hold | hnew
      · exact ih t hold
      · rcases hnew with rfl
        have hb := (ih t0 (List.getElem?_mem ht0)).2
        rw [hin0, hp0] at hb
        refine ⟨by simp, ?_⟩
        simp only at hb ⊢
        rw [hb]
        simp
    | finishCmd i t0 c ht0 hin0 =>
      intro t ht
      rcases List.mem_or_eq_of_mem_set ht with hold | hnew
      · exact ih t hold
      · rcases hnew with rfl
        have hb := (ih t0 (List.getElem?_mem ht0)).2
        rw [hin0] at hb
        refine ⟨by simp, ?_⟩
        simp only at hb ⊢
        rw [hb]
        simp

/-- Witness for the C2 theorem at a concrete reachable state holding a
single freshly fetched task. -/
theorem c2_within_tick_sequential_witness :
    (TickTask.mk ["A"] [] [] ["A"]).inflight.length ≤ 1 ∧
    (TickTask.mk ["A"] [] [] ["A"]).batch =
      (TickTask.mk ["A"] [] [] ["A"]).done ++ (TickTask.mk ["A"] [] [] ["A"]).inflight ++
        (TickTask.mk ["A"] [] [] ["A"]).pending :=
  c2_within_tick_sequential ⟨true, [⟨["A"], [], [], ["A"]⟩]⟩
    (Relation.ReflTransGen.single (.tickFire pollInit ["A"] rfl))
    ⟨["A"], [], [], ["A"]⟩ (by decide)

/-- C10: counterexample.  The agent verb is recognized and its sub-verb
table holds only the ask sub-verb, yet an unrecognized agent sub-verb
does not yield the default command with empty arguments: the remaining
tokens are passed through. -/
theorem c10_agent_passes_tokens_through :
    parseCliCommand "agent frobnicate x" = ⟨":agent", ["frobnicate", "x"]⟩ ∧
    parseCliCommand "agent frobnicate x" ≠ ⟨":agent", []⟩ := by
  decide

/-- C10 as amended: for the task and git verbs specifically, an
unrecognized sub-verb yields the verb's default canonical command with
an empty argument list, discarding the unrecognized sub-verb and every
remaining token; other recognized verbs pass the remaining tokens
through instead. -/
theorem c10_task_git_default_discards :
    ∀ (s : String) (sub : String) (rest : List String),
      (cliParts s = "task" :: sub :: rest →
        sub ∉ (["add", "create", "list", "complete", "done", "delete", "remove"] : List String) →
        parseCliCommand s = ⟨":task list", []⟩) ∧
      (cliParts s = "git" :: sub :: rest →
        sub ∉ (["status", "commit", "branches", "prs", "pr", "config"] : List String) →
        sub ≠ "" →
        parseCliCommand s = ⟨":git status", []⟩) := by
  intro s sub rest
  constructor
  · intro hp hsub
    simp only [List.mem_cons, List.mem_singleton, not_or] at hsub
    obtain ⟨h1, h2, h3, h4, h5, h6, h7⟩ := hsub
    simp [parseCliCommand, hp, jsToLower, h1, h2, h3, h4, h5, h6, h7]
  · intro hp hsub hne
    simp only [List.mem_cons, List.mem_singleton, not_or] at hsub
    obtain ⟨h1, h2, h3, h4, h5, h6⟩ := hsub
    simp [parseCliCommand, hp, jsToLower, optTruthy, h1, h2, h3, h4, h5, h6, hne]

/-- Witness for the C10 theorem at the two concrete example inputs. -/
theorem c10_task_git_default_discards_witness :
    parseCliCommand "task frobnicate x" = ⟨":task list", []⟩ ∧
    parseCliCommand "git frobnicate x" = ⟨":git status", []⟩ :=
  ⟨(c10_task_git_default_discards "task frobnicate x" "frobnicate" ["x"]).1
      (by decide) (by decide),
   (c10_task_git_default_discards "git frobnicate x" "frobnicate" ["x"]).2
      (by decide) (by decide) (by decide)⟩
